import Mathlib

/-!
Shallow embedding of the bucket / generation / disk-reservation layer of
`src/libbcachefs/buckets.h` (bcachefs-tools), together with theorems checking
the natural-language specification against it.

Machine integers are modelled as `Nat` (unsigned) or `Int` (signed) with the
wrapping reductions made explicit: `u8` values live mod `2^8`, `u64` values
mod `2^64`, and `s8`/`s64` are the two's-complement reinterpretations of the
corresponding unsigned values.
-/

namespace Buckets

/-- Unsigned 8-bit wrapping subtraction: the value of `(u8)(a - b)` in C,
for arbitrary `Nat` inputs (each first reduced mod 256). -/
def u8sub (a b : Nat) : Nat :=
  (a % 256 + (256 - b % 256)) % 256

/-- Reinterpret an 8-bit unsigned value as a signed two's-complement `s8`. -/
def s8ofU8 (n : Nat) : Int :=
  if n % 256 < 128 then ((n % 256 : Nat) : Int) else ((n % 256 : Nat) : Int) - 256

/-- Reinterpret a 64-bit unsigned value as a signed two's-complement `s64`. -/
def s64ofU64 (n : Nat) : Int :=
  if n % 2 ^ 64 < 2 ^ 63 then ((n % 2 ^ 64 : Nat) : Int)
  else ((n % 2 ^ 64 : Nat) : Int) - 2 ^ 64

/-- Wrap an integer into the signed 64-bit range `[-2^63, 2^63)`,
the effect of two's-complement overflow on `s64` arithmetic. -/
def wrapS64 (z : Int) : Int :=
  (z + 2 ^ 63) % 2 ^ 64 - 2 ^ 63

/-- Unsigned 64-bit wrapping subtraction: the value of `a - b` on `u64`. -/
def u64sub (a b : Nat) : Nat :=
  (a % 2 ^ 64 + (2 ^ 64 - b % 2 ^ 64)) % 2 ^ 64

/-- `gen_cmp` from buckets.h: `(s8) (a - b)`, the wrapping signed difference
of two 8-bit generation numbers. -/
def gen_cmp (a b : Nat) : Int :=
  s8ofU8 (u8sub a b)

/-- `gen_after` from buckets.h: `r > 0 ? r : 0` where `r = gen_cmp a b`. -/
def gen_after (a b : Nat) : Int :=
  if gen_cmp a b > 0 then gen_cmp a b else 0

/-- `ptr_stale` from buckets.h: `gen_after(*bucket_gen(ca, bucket), ptr->gen)`,
returned as a `u8`.  `currentGen` is the bucket's current generation read from
the device's generation array, `ptrGen` the generation recorded in the extent
pointer. -/
def ptr_stale (currentGen ptrGen : Nat) : Nat :=
  (gen_after currentGen ptrGen).toNat

/-- `struct bucket_mark` (packed mark word): data type, dirty/cached sector
counts, stripe flag and generation snapshot. -/
structure bucket_mark where
  gen : Nat
  data_type : Nat
  dirty_sectors : Nat
  cached_sectors : Nat
  stripe : Bool
  deriving Repr, DecidableEq

/-- `struct bucket`: the fields used by `bucket_gc_gen`. -/
structure bucket where
  mark : bucket_mark
  oldest_gen : Nat
  deriving Repr, DecidableEq

/-- `bucket_gc_gen` from buckets.h: `g->mark.gen - g->oldest_gen` computed on
`u8`, i.e. wrapping 8-bit subtraction. -/
def bucket_gc_gen (g : bucket) : Nat :=
  u8sub g.mark.gen g.oldest_gen

/-- `is_available_bucket` from buckets.h:
`!mark.dirty_sectors && !mark.stripe`. -/
def is_available_bucket (mark : bucket_mark) : Bool :=
  mark.dirty_sectors == 0 && !mark.stripe

/-- The fields of `struct bch_dev_usage` used by the projections in
buckets.h (the struct itself is defined in buckets_types.h). -/
structure bch_dev_usage where
  buckets_unavailable : Nat
  deriving Repr, DecidableEq

/-- The fields of `struct bch_dev` read by `__dev_buckets_available` and
`__dev_buckets_reclaimable`: the member-info geometry `mi.nbuckets` /
`mi.first_bucket`, the current sizes `fifo_used(&ca->free[i])` of the
`RESERVE_NR` freelist tiers, the size `fifo_used(&ca->free_inc)` of the
incoming staging queue, and `ca->nr_open_buckets`. -/
structure bch_dev where
  mi_nbuckets : Nat
  mi_first_bucket : Nat
  free : List Nat
  free_inc : Nat
  nr_open_buckets : Nat
  deriving Repr, DecidableEq

/-- `__dev_buckets_available` from buckets.h: `total = nbuckets -
first_bucket` on u64; returns 0 (after `WARN_ONCE`, a logging side effect
outside this value-level embedding) when `buckets_unavailable > total`, and
`total - buckets_unavailable` otherwise. -/
def __dev_buckets_available (ca : bch_dev) (stats : bch_dev_usage) : Nat :=
  let total := u64sub ca.mi_nbuckets ca.mi_first_bucket
  if stats.buckets_unavailable > total then 0
  else u64sub total stats.buckets_unavailable

/-- `__dev_buckets_reclaimable` from buckets.h: starts from
`__dev_buckets_available` read into a signed 64-bit `available`, subtracts
each freelist tier's occupancy, the incoming queue's occupancy and the open
bucket count (all on wrapping s64), and returns `max(available, 0LL)`. -/
def __dev_buckets_reclaimable (ca : bch_dev) (stats : bch_dev_usage) : Nat :=
  let a0 : Int := s64ofU64 (__dev_buckets_available ca stats)
  let a1 : Int := ca.free.foldl (fun (a : Int) (n : Nat) => wrapS64 (a - n)) a0
  let a2 : Int := wrapS64 (a1 - ca.free_inc)
  let a3 : Int := wrapS64 (a2 - ca.nr_open_buckets)
  (max a3 0).toNat

/-- `RESERVE_FACTOR` from buckets.h. -/
def RESERVE_FACTOR : Nat := 6

/-- `avail_factor` from buckets.h: `div_u64(r << RESERVE_FACTOR,
(1 << RESERVE_FACTOR) + 1)`; the shift is performed on u64 and therefore
truncates mod `2^64`. -/
def avail_factor (r : Nat) : Nat :=
  r * 2 ^ RESERVE_FACTOR % 2 ^ 64 / (2 ^ RESERVE_FACTOR + 1)

/-- `struct disk_reservation` (buckets_types.h): the fields used by
buckets.h (the `gen` field is compiled out under `#if 0`). -/
structure disk_reservation where
  sectors : Nat
  nr_replicas : Nat
  deriving Repr, DecidableEq

/-- The filesystem state touched by the disk-reservation functions: the
per-CPU online-reserved counter `*c->online_reserved` (folded to its total)
and the capacity consulted by the spec-modelled admission check. -/
structure bch_fs where
  online_reserved : Nat
  capacity : Nat
  deriving Repr, DecidableEq

/-- Unsigned 64-bit wrapping addition. -/
def u64add (a b : Nat) : Nat :=
  (a + b) % 2 ^ 64

/-- `bch2_disk_reservation_put` from buckets.h:
`this_cpu_sub(*c->online_reserved, res->sectors); res->sectors = 0;`. -/
def bch2_disk_reservation_put (c : bch_fs) (res : disk_reservation) :
    bch_fs × disk_reservation :=
  ({ c with online_reserved := u64sub c.online_reserved res.sectors },
   { res with sectors := 0 })

/-- `bch2_disk_reservation_init` from buckets.h: a token with zero sectors
and the given replica count. -/
def bch2_disk_reservation_init (nr_replicas : Nat) : disk_reservation :=
  { sectors := 0, nr_replicas := nr_replicas }

/-- Modelled from the spec: `bch2_disk_reservation_add` is only declared in
buckets.h; its body is not under src/.  Per §4.3 of the spec, it admits the
request when the override flag (`BCH_DISK_RESERVATION_NOFAIL`, bit 0) is set
or when the reserved total stays within the usable fraction of capacity
(`avail_factor`, withholding the ~1/65 headroom); on success it atomically
adds `sectors` to the online-reserved counter and records it in the token,
otherwise it fails with InsufficientSpace (`none`). -/
def bch2_disk_reservation_add (c : bch_fs) (res : disk_reservation)
    (sectors flags : Nat) : Option (bch_fs × disk_reservation) :=
  if flags % 2 = 1 ∨ u64add c.online_reserved sectors ≤ avail_factor c.capacity then
    some ({ c with online_reserved := u64add c.online_reserved sectors },
          { res with sectors := u64add res.sectors sectors })
  else
    none

/-- `bch2_disk_reservation_get` from buckets.h: initializes the token and
calls `bch2_disk_reservation_add` with `sectors * nr_replicas` (a u64
product, hence taken mod `2^64`). -/
def bch2_disk_reservation_get (c : bch_fs) (sectors nr_replicas flags : Nat) :
    Option (bch_fs × disk_reservation) :=
  bch2_disk_reservation_add c (bch2_disk_reservation_init nr_replicas)
    (sectors * nr_replicas % 2 ^ 64) flags

/-!
Interleaving model of the `bucket_cmpxchg` macro.  The macro reads the
current packed mark word (`u64 _v = atomic64_read(&g->_mark.v)`), then
loops: it computes the new word from the last observed value `_v` (the
macro body `expr`, modelled as a function on mark words), and issues
`atomic64_cmpxchg(&g->_mark.v, _old, new)`.  A successful compare-and-swap
installs the new word and ends the loop; a failed one returns the freshly
observed current word, which becomes the `_v` for the retry.
-/

namespace Cas

/-- One caller of `bucket_cmpxchg` on a given bucket: its mutate function
(the macro body `expr`, computing the new mark word from the old) and the
last mark word it observed (`_v`), `none` before its initial
`atomic64_read`. -/
structure Thread where
  f : Nat → Nat
  obs : Option Nat

/-- A configuration: the bucket's current packed mark word and the callers
whose `bucket_cmpxchg` invocation is still running. -/
structure Config where
  val : Nat
  threads : List Thread

/-- One atomic action of some running caller: the initial `atomic64_read`,
a successful `atomic64_cmpxchg` (installs `f v` and finishes the caller),
or a failed one (the caller's `_v` becomes the freshly observed current
word and it retries). -/
inductive Step : Config → Config → Prop where
  | read (v : Nat) (l1 l2 : List Thread) (f : Nat → Nat) :
      Step ⟨v, l1 ++ ⟨f, none⟩ :: l2⟩ ⟨v, l1 ++ ⟨f, some v⟩ :: l2⟩
  | casOk (v : Nat) (l1 l2 : List Thread) (f : Nat → Nat) :
      Step ⟨v, l1 ++ ⟨f, some v⟩ :: l2⟩ ⟨f v, l1 ++ l2⟩
  | casFail (v o : Nat) (l1 l2 : List Thread) (f : Nat → Nat) :
      o ≠ v →
      Step ⟨v, l1 ++ ⟨f, some o⟩ :: l2⟩ ⟨v, l1 ++ ⟨f, some v⟩ :: l2⟩

/-- Any interleaving of steps. -/
def Reaches : Config → Config → Prop :=
  Relation.ReflTransGen Step

end Cas

end Buckets

namespace Buckets

/- Arithmetic facts about the 8-bit helpers. -/

theorem u8sub_lt (a b : Nat) : u8sub a b < 256 := by
  unfold u8sub; omega

theorem u8sub_self (a : Nat) : u8sub a a = 0 := by
  unfold u8sub; omega

theorem u8sub_succ_left (a b : Nat) :
    u8sub (a + 1) b = (u8sub a b + 1) % 256 := by
  unfold u8sub; omega

theorem gen_cmp_pos_iff (a b : Nat) :
    gen_cmp a b > 0 ↔ 1 ≤ u8sub a b ∧ u8sub a b ≤ 127 := by
  have h := u8sub_lt a b
  unfold gen_cmp s8ofU8
  split <;> omega

theorem ptr_stale_eq_zero_iff (a b : Nat) :
    ptr_stale a b = 0 ↔ ¬ gen_cmp a b > 0 := by
  unfold ptr_stale gen_after
  split <;> rename_i h
  · constructor
    · intro htn
      exact absurd h (by omega)
    · intro hn; exact absurd h hn
  · simp [h]

theorem ptr_stale_ne_zero_iff (a b : Nat) :
    ptr_stale a b ≠ 0 ↔ 1 ≤ u8sub a b ∧ u8sub a b ≤ 127 := by
  rw [← gen_cmp_pos_iff, Ne, ptr_stale_eq_zero_iff, not_not]

theorem u8sub_succ_self (g : Nat) : u8sub (g + 1) g = 1 := by
  rw [u8sub_succ_left, u8sub_self]

/-- C1: `ptr_stale` reports a pointer stale exactly when the wrapping signed
8-bit difference `gen_cmp currentGen ptrGen` is strictly positive, and returns
0 otherwise; a pointer whose recorded gen equals the bucket's current gen is
not stale, and after the bucket's gen advances by one the same pointer is
stale. -/
theorem ptr_stale_iff_gen_cmp_pos (cur ptrGen g : Nat) :
    (ptr_stale cur ptrGen ≠ 0 ↔ gen_cmp cur ptrGen > 0) ∧
    (¬ gen_cmp cur ptrGen > 0 → ptr_stale cur ptrGen = 0) ∧
    ptr_stale g g = 0 ∧
    ptr_stale (g + 1) g ≠ 0 := by
  refine ⟨?_, ?_, ?_, ?_⟩
  · rw [Ne, ptr_stale_eq_zero_iff, not_not]
  · exact (ptr_stale_eq_zero_iff cur ptrGen).mpr
  · rw [ptr_stale_eq_zero_iff, gen_cmp, u8sub_self]
    unfold s8ofU8
    norm_num
  · rw [ptr_stale_ne_zero_iff, u8sub_succ_self]
    omega

/-- C5: staleness is monotonic under generation advances: if a pointer is
stale at `cur` and the wrapping distance of every intermediate generation
`cur + j` (for `j ≤ k`) from `ptrGen` stays within the 127-generation window,
the pointer is still stale at `cur + k`. -/
theorem ptr_stale_monotonic (ptrGen cur k : Nat)
    (hstale : ptr_stale cur ptrGen ≠ 0)
    (hwin : ∀ j, j ≤ k → u8sub (cur + j) ptrGen ≤ 127) :
    ptr_stale (cur + k) ptrGen ≠ 0 := by
  induction k with
  | zero => exact hstale
  | succ k ih =>
    have ihk : ptr_stale (cur + k) ptrGen ≠ 0 :=
      ih fun j hj => hwin j (Nat.le_trans hj (Nat.le_succ k))
    have hd := (ptr_stale_ne_zero_iff (cur + k) ptrGen).mp ihk
    have hstep : u8sub (cur + (k + 1)) ptrGen = (u8sub (cur + k) ptrGen + 1) % 256 := by
      rw [← Nat.add_assoc]
      exact u8sub_succ_left (cur + k) ptrGen
    have hnext := hwin (k + 1) (Nat.le_refl _)
    rw [ptr_stale_ne_zero_iff, hstep]
    omega

/-- C5 witness: a pointer with gen 3 is stale at current gen 4 and, each
intermediate distance staying within the window, is still stale at gen 6. -/
theorem ptr_stale_monotonic_witness : ptr_stale (4 + 2) 3 ≠ 0 :=
  ptr_stale_monotonic 3 4 2 (by decide) (by decide)

/-- C7: `is_available_bucket` holds exactly when `dirty_sectors = 0` and
`stripe = false`, and changing the cached-sector count never changes the
result. -/
theorem is_available_bucket_spec (m : bucket_mark) (c : Nat) :
    (is_available_bucket m = true ↔ m.dirty_sectors = 0 ∧ m.stripe = false) ∧
    is_available_bucket { m with cached_sectors := c } = is_available_bucket m := by
  constructor
  · unfold is_available_bucket
    simp [Bool.and_eq_true, beq_iff_eq, Bool.not_eq_true']
  · rfl

theorem u64sub_exact (a b : Nat) (ha : a < 2 ^ 64) (hb : b ≤ a) :
    u64sub a b = a - b := by
  unfold u64sub; omega

/-- C4: when `buckets_unavailable ≤ total` (with `total = nbuckets -
first_bucket`), `__dev_buckets_available` returns `total -
buckets_unavailable`; when `buckets_unavailable` exceeds `total` it returns
the defensive clamp 0 (the accompanying `WARN_ONCE` is a logging side
effect), never a wrapped value. -/
theorem dev_buckets_available_spec (ca : bch_dev) (stats : bch_dev_usage)
    (hn : ca.mi_nbuckets < 2 ^ 64) (hf : ca.mi_first_bucket ≤ ca.mi_nbuckets) :
    (stats.buckets_unavailable ≤ ca.mi_nbuckets - ca.mi_first_bucket →
      __dev_buckets_available ca stats =
        ca.mi_nbuckets - ca.mi_first_bucket - stats.buckets_unavailable) ∧
    (stats.buckets_unavailable > ca.mi_nbuckets - ca.mi_first_bucket →
      __dev_buckets_available ca stats = 0) := by
  have htot : u64sub ca.mi_nbuckets ca.mi_first_bucket =
      ca.mi_nbuckets - ca.mi_first_bucket := u64sub_exact _ _ hn hf
  unfold __dev_buckets_available
  rw [htot]
  constructor
  · intro h
    rw [if_neg (by omega), u64sub_exact _ _ (by omega) h]
  · intro h
    rw [if_pos h]

/-- C4 witness: a device with 100 buckets starting at bucket 1 and 40
unavailable has 59 available; with 200 unavailable the projection clamps
to 0. -/
theorem dev_buckets_available_spec_witness :
    __dev_buckets_available ⟨100, 1, [], 0, 0⟩ ⟨40⟩ = 100 - 1 - 40 ∧
    __dev_buckets_available ⟨100, 1, [], 0, 0⟩ ⟨200⟩ = 0 :=
  ⟨(dev_buckets_available_spec ⟨100, 1, [], 0, 0⟩ ⟨40⟩ (by norm_num)
      (by norm_num)).1 (by norm_num),
   (dev_buckets_available_spec ⟨100, 1, [], 0, 0⟩ ⟨200⟩ (by norm_num)
      (by norm_num)).2 (by norm_num)⟩

theorem wrapS64_eq_self (z : Int) (h1 : -(2 ^ 63) ≤ z) (h2 : z < 2 ^ 63) :
    wrapS64 z = z := by
  unfold wrapS64; omega

theorem s64ofU64_eq_self (n : Nat) (h : n < 2 ^ 63) : s64ofU64 n = n := by
  unfold s64ofU64
  rw [if_pos (by omega), Nat.mod_eq_of_lt (by omega)]

theorem foldl_wrapS64_sub (l : List Nat) (a : Int)
    (hlo : -(2 ^ 63) + l.sum ≤ a) (hhi : a < 2 ^ 63) :
    l.foldl (fun (x : Int) (n : Nat) => wrapS64 (x - n)) a = a - l.sum := by
  induction l generalizing a with
  | nil => simp
  | cons n t ih =>
    have hsum : ((n :: t).sum : Int) = (n : Int) + (t.sum : Int) := by
      push_cast [List.sum_cons]; ring
    rw [List.foldl_cons,
        wrapS64_eq_self (a - n) (by omega) (by omega),
        ih (a - n) (by omega) (by omega)]
    omega

/-- C3: under sane bounds (available buckets and the subtracted occupancy
totals each below `2^63`, so the s64 arithmetic cannot wrap),
`__dev_buckets_reclaimable` equals buckets-available minus the sum of all
freelist tier sizes, minus the incoming staging queue size, minus the open
bucket count, clamped below at zero — an expression that is nonnegative for
every input. -/
theorem dev_buckets_reclaimable_spec (ca : bch_dev) (stats : bch_dev_usage)
    (hA : __dev_buckets_available ca stats < 2 ^ 63)
    (hS : ca.free.sum + ca.free_inc + ca.nr_open_buckets < 2 ^ 63) :
    (__dev_buckets_reclaimable ca stats : Int) =
      max ((__dev_buckets_available ca stats : Int) - ca.free.sum
            - ca.free_inc - ca.nr_open_buckets) 0 := by
  unfold __dev_buckets_reclaimable
  simp only [s64ofU64_eq_self _ hA]
  rw [foldl_wrapS64_sub ca.free _ (by omega) (by omega),
      wrapS64_eq_self ((__dev_buckets_available ca stats : Int)
        - ca.free.sum - ca.free_inc) (by omega) (by omega),
      wrapS64_eq_self ((__dev_buckets_available ca stats : Int)
        - ca.free.sum - ca.free_inc - ca.nr_open_buckets) (by omega) (by omega)]
  rw [Int.toNat_of_nonneg (le_max_right _ _)]

/-- C3 witness: 59 available buckets, freelist tiers holding 3 and 4
buckets, 2 incoming, 5 open: 45 reclaimable, matching the clamped formula. -/
theorem dev_buckets_reclaimable_spec_witness :
    (__dev_buckets_reclaimable ⟨100, 1, [3, 4], 2, 5⟩ ⟨40⟩ : Int) =
      max ((__dev_buckets_available ⟨100, 1, [3, 4], 2, 5⟩ ⟨40⟩ : Int)
            - (([3, 4] : List Nat).sum : Int) - 2 - 5) 0 :=
  dev_buckets_reclaimable_spec ⟨100, 1, [3, 4], 2, 5⟩ ⟨40⟩ (by decide)
    (by decide)

/-- C8: `bucket_gc_gen` is the 8-bit wrapping difference `mark.gen −
oldest_gen`: as an integer it equals `(mark.gen − oldest_gen) mod 256`, it is
congruent mod 256 to the staleness check's signed difference `gen_cmp
mark.gen oldest_gen`, and it fits in 8 bits. -/
theorem bucket_gc_gen_spec (g : bucket) :
    (bucket_gc_gen g : Int) = ((g.mark.gen : Int) - (g.oldest_gen : Int)) % 256 ∧
    gen_cmp g.mark.gen g.oldest_gen % 256 = (bucket_gc_gen g : Int) % 256 ∧
    bucket_gc_gen g < 256 := by
  unfold bucket_gc_gen gen_cmp s8ofU8 u8sub
  refine ⟨?_, ?_, by omega⟩
  · push_cast
    omega
  · split <;> push_cast <;> omega

/-- C6 counterexample: at `r = 2^58` the u64 shift `r << 6` wraps to 0, so
`avail_factor` returns 0 instead of `floor(64 r / 65)`; the claimed identity
does not hold for every capacity `r`. -/
theorem avail_factor_claim_counterexample :
    avail_factor (2 ^ 58) ≠ 2 ^ 58 * 2 ^ RESERVE_FACTOR / (2 ^ RESERVE_FACTOR + 1) := by
  decide

/-- C6 (amended): for every capacity `r < 2^58` — so that the u64 shift
`r << 6` does not overflow — `avail_factor r = floor(64 r / 65)`; thus
admission hands out at most 64/65 of capacity (`65 * avail_factor r ≤ 64 * r`
and `avail_factor r ≤ r`), withholding ~1/65 as headroom. -/
theorem avail_factor_spec (r : Nat) (h : r < 2 ^ 58) :
    avail_factor r = r * 2 ^ RESERVE_FACTOR / (2 ^ RESERVE_FACTOR + 1) ∧
    65 * avail_factor r ≤ 64 * r ∧
    avail_factor r ≤ r := by
  have h64 : r * 2 ^ RESERVE_FACTOR < 2 ^ 64 := by
    unfold RESERVE_FACTOR
    omega
  have hr : r * 2 ^ RESERVE_FACTOR % 2 ^ 64 = r * 2 ^ RESERVE_FACTOR :=
    Nat.mod_eq_of_lt h64
  have hdm := Nat.div_add_mod (r * 2 ^ RESERVE_FACTOR) (2 ^ RESERVE_FACTOR + 1)
  have hml : r * 2 ^ RESERVE_FACTOR % (2 ^ RESERVE_FACTOR + 1)
      < 2 ^ RESERVE_FACTOR + 1 := Nat.mod_lt _ (by norm_num)
  unfold avail_factor
  rw [hr]
  refine ⟨rfl, ?_, ?_⟩ <;>
    (unfold RESERVE_FACTOR at hdm hml ⊢; omega)

/-- C6 witness: at the in-range capacity 130 the amended identity and the
64/65 bound hold. -/
theorem avail_factor_spec_witness :
    avail_factor 130 = 130 * 2 ^ RESERVE_FACTOR / (2 ^ RESERVE_FACTOR + 1) ∧
    65 * avail_factor 130 ≤ 64 * 130 ∧
    avail_factor 130 ≤ 130 :=
  avail_factor_spec 130 (by norm_num)

/-- C2: a successful `bch2_disk_reservation_get` — which computes
`need = sectors * nr_replicas`, adds it to the online-reserved counter and
records it in the token — followed immediately by
`bch2_disk_reservation_put` leaves the online-reserved counter at its
original value. -/
theorem disk_reservation_get_put_roundtrip (c : bch_fs)
    (sectors nr_replicas flags : Nat) (c2 : bch_fs) (res : disk_reservation)
    (hc : c.online_reserved < 2 ^ 64)
    (hget : bch2_disk_reservation_get c sectors nr_replicas flags = some (c2, res)) :
    (bch2_disk_reservation_put c2 res).1.online_reserved = c.online_reserved ∧
    c2.online_reserved = u64add c.online_reserved (sectors * nr_replicas % 2 ^ 64) ∧
    res.sectors = sectors * nr_replicas % 2 ^ 64 := by
  unfold bch2_disk_reservation_get bch2_disk_reservation_add
    bch2_disk_reservation_init at hget
  split at hget
  · rw [Option.some_inj, Prod.mk.injEq] at hget
    obtain ⟨hc2, hres⟩ := hget
    subst hc2 hres
    unfold bch2_disk_reservation_put
    dsimp only
    unfold u64add u64sub
    refine ⟨by omega, by omega, by omega⟩
  · exact absurd hget (by simp)

/-- C2 witness: from an empty counter with capacity 6500, reserving 400
sectors with 1 replica succeeds and the immediate release restores the
counter to 0. -/
theorem disk_reservation_get_put_roundtrip_witness :
    (bch2_disk_reservation_put ⟨400, 6500⟩ ⟨400, 1⟩).1.online_reserved =
      (⟨0, 6500⟩ : bch_fs).online_reserved :=
  (disk_reservation_get_put_roundtrip ⟨0, 6500⟩ 400 1 0 ⟨400, 6500⟩ ⟨400, 1⟩
    (by norm_num) (by decide)).1

/-- C9: in any interleaving of `bucket_cmpxchg` callers on one bucket that
runs until every caller has finished, the final mark word is the result of
applying all the mutate functions, each exactly once, in some order starting
from the initial word — no update is lost.  (The retry of a failed
compare-and-swap against the freshly observed word is the `casFail` action
of the step relation.) -/
theorem cas_serializes (c : Cas.Config) (w : Nat)
    (h : Cas.Reaches c ⟨w, []⟩) :
    ∃ fs : List (Nat → Nat), fs.Perm (c.threads.map Cas.Thread.f) ∧
      w = fs.foldl (fun a f => f a) c.val := by
  induction h using Relation.ReflTransGen.head_induction_on with
  | refl => exact ⟨[], by simp, rfl⟩
  | head hstep htail ih =>
    cases hstep with
    | read v l1 l2 f =>
      obtain ⟨fs, hperm, hw⟩ := ih
      exact ⟨fs, by simpa using hperm, hw⟩
    | casOk v l1 l2 f =>
      obtain ⟨fs, hperm, hw⟩ := ih
      refine ⟨f :: fs, ?_, ?_⟩
      · simp only [List.map_append, List.map_cons] at hperm ⊢
        exact (hperm.cons f).trans List.perm_middle.symm
      · rw [List.foldl_cons]
        exact hw
    | casFail v o l1 l2 f hne =>
      obtain ⟨fs, hperm, hw⟩ := ih
      exact ⟨fs, by simpa using hperm, hw⟩

/-- C9 witness: two concurrent callers (add one; double) on a bucket whose
mark word starts at 0, interleaved so that the doubler loses one
compare-and-swap and retries, finish with word 2 — a serialization of both
updates. -/
theorem cas_serializes_witness :
    ∃ fs : List (Nat → Nat),
      fs.Perm ((Cas.Config.mk 0 [⟨fun n => n + 1, none⟩, ⟨fun n => 2 * n, none⟩]).threads.map
        Cas.Thread.f) ∧
      2 = fs.foldl (fun a f => f a)
        (Cas.Config.mk 0 [⟨fun n => n + 1, none⟩, ⟨fun n => 2 * n, none⟩]).val := by
  apply cas_serializes
  exact Relation.ReflTransGen.head
    (Cas.Step.read 0 [] [⟨fun n => 2 * n, none⟩] (fun n => n + 1))
    (Relation.ReflTransGen.head
      (Cas.Step.read 0 [⟨fun n => n + 1, some 0⟩] [] (fun n => 2 * n))
      (Relation.ReflTransGen.head
        (Cas.Step.casOk 0 [] [⟨fun n => 2 * n, some 0⟩] (fun n => n + 1))
        (Relation.ReflTransGen.head
          (Cas.Step.casFail 1 0 [] [] (fun n => 2 * n) (by decide))
          (Relation.ReflTransGen.head
            (Cas.Step.casOk 1 [] [] (fun n => 2 * n))
            Relation.ReflTransGen.refl))))

/-- C10: `bch2_disk_reservation_put` zeroes the token's `sectors` field
after subtracting it from the online-reserved counter, so a second release
of the same token subtracts zero and leaves the counter unchanged. -/
theorem disk_reservation_put_double (c : bch_fs) (res : disk_reservation) :
    (bch2_disk_reservation_put c res).2.sectors = 0 ∧
    (bch2_disk_reservation_put (bch2_disk_reservation_put c res).1
        (bch2_disk_reservation_put c res).2).1.online_reserved =
      (bch2_disk_reservation_put c res).1.online_reserved := by
  unfold bch2_disk_reservation_put
  dsimp only
  unfold u64sub
  exact ⟨rfl, by omega⟩

end Buckets
